import Mathlib

/-!
Verification of the KPI aggregator of the short-term-rental BI dashboard
(`Globlal_Dashboard.py` and `test_version.py`).

Modelling conventions:
* a pandas DataFrame is a list of booking rows plus a flag recording whether
  the seven rating columns are present (`'rating' in df.columns`);
* dates are integers (days); `nights` is a natural number (the data model
  declares it an integer ≥ 0); money and rates are rationals;
* a float `NaN` (mean of an empty series, `NaT` arithmetic on an empty
  datetime column) is `none : Option ℚ`; a division of numpy scalars by
  zero never raises and yields a signed infinity or `NaN` (the `PFloat`
  type), while a division of two plain Python ints by zero raises
  `ZeroDivisionError`, modelled as `Except.error ()`;
* Python's `round(x, 2)` is modelled as exact decimal rounding to two
  places (half-way ties are immaterial to every property proved here);
* `groupby` group labels are listed in first-occurrence order; pandas sorts
  the labels, but every property stated here reads groups by key, so the
  order of the association list is irrelevant.
-/

namespace Dashboard

/-- One row of the joined bookings × reviews table produced by `load_data`:
bookings columns, plus the seven review columns brought in by the left join
(absent review ⇒ all rating fields `none`), plus the `lead_time` column that
`calculate_kpis` of `Globlal_Dashboard.py` writes into the frame (`none`
while the column is absent). -/
structure Booking where
  code : Nat
  property_name : String
  platform : String
  status : String
  checkin_date : Int
  checkout_date : Int
  booking_date : Int
  nights : Nat
  revenue : ℚ
  rating : Option ℚ := none
  value_rating : Option ℚ := none
  communication_rating : Option ℚ := none
  location_rating : Option ℚ := none
  cleanliness_rating : Option ℚ := none
  accuracy_rating : Option ℚ := none
  checkin_rating : Option ℚ := none
  lead_time : Option Int := none
deriving DecidableEq, Repr

/-- A loaded table: the rows and whether the rating columns exist
(`'rating' in df.columns` etc. in both `calculate_kpis` variants). -/
structure DataFrame where
  rows : List Booking
  ratingCols : Bool
deriving DecidableEq, Repr

/-- `series.max()`: `none` (pandas `NaT`/`nan`) on an empty column. -/
def seriesMax : List Int → Option Int
  | [] => none
  | x :: xs => some (xs.foldl max x)

/-- `series.min()`: `none` on an empty column. -/
def seriesMin : List Int → Option Int
  | [] => none
  | x :: xs => some (xs.foldl min x)

/-- `series.mean()`: `nan` (`none`) on an empty series; pandas means skip
`NaN` entries, which callers model by `filterMap`-ing the column first. -/
def seriesMean (l : List ℚ) : Option ℚ :=
  if l = [] then none else some (l.sum / (l.length : ℚ))

/-- Python `round(q, 2)` as exact decimal rounding to two places. -/
def round2 (q : ℚ) : ℚ := ((round (q * 100) : ℤ) : ℚ) / 100

/-- `df['nights'].sum()` (0 on an empty frame, like pandas). -/
def totalNights (rows : List Booking) : Nat :=
  (rows.map Booking.nights).sum

/-- `df['revenue'].sum()` (0 on an empty frame). -/
def totalRevenue (rows : List Booking) : ℚ :=
  (rows.map Booking.revenue).sum

/-- `len(df['property_name'].unique())`. -/
def numProperties (rows : List Booking) : Nat :=
  (rows.map Booking.property_name).dedup.length

/-- `(df['checkout_date'].max() - df['checkin_date'].min()).days + 1`;
`none` models the `nan` this produces on an empty frame. -/
def periodDays (rows : List Booking) : Option Int :=
  match seriesMax (rows.map Booking.checkout_date),
        seriesMin (rows.map Booking.checkin_date) with
  | some M, some m => some (M - m + 1)
  | _, _ => none

/-- `period_days * num_properties` (`nan * 0 = nan` on an empty frame). -/
def totalAvailableNights (rows : List Booking) : Option Int :=
  (periodDays rows).map (fun d => d * (numProperties rows : Int))

/-- `df[col].mean()` for a rating column, exactly as both `calculate_kpis`
variants compute it: pandas-`mean` skips nulls; when the column is absent
the Python conditional substitutes `0`. -/
def avgRatingCol (df : DataFrame) (col : Booking → Option ℚ) : Option ℚ :=
  if df.ratingCols then (seriesMean (df.rows.filterMap col)).map round2
  else some 0

/-- `(df['status'] == 'cancelled')` row count of `test_version.py`. -/
def countCancelled (rows : List Booking) : Nat :=
  (rows.filter (fun r => decide (r.status = "cancelled"))).length

/-- Pandas/numpy float values as produced by a division of numpy scalars:
a number, `nan`, or a signed infinity.  Dividing a numpy scalar by zero
never raises — it warns and yields one of the special values. -/
inductive PFloat where
  | num (q : ℚ)
  | nan
  | inf
  | neginf
deriving DecidableEq, Repr

/-- IEEE-style numpy division `a / b`: division by zero yields a signed
infinity (or `nan` for `0/0`) instead of raising. -/
def floatDiv (a b : ℚ) : PFloat :=
  if b ≠ 0 then .num (a / b)
  else if 0 < a then .inf
  else if a < 0 then .neginf
  else .nan

/-- Apply a real function to a float value; `nan` and the infinities pass
through (as Python's `round` and `* 100` do on them). -/
def pfMap (f : ℚ → ℚ) : PFloat → PFloat
  | .num q => .num (f q)
  | .nan => .nan
  | .inf => .inf
  | .neginf => .neginf

/-- Numeric KPI outputs of `calculate_kpis` in `Globlal_Dashboard.py`
(the display formatting of the returned dict is not modelled).  The
occupancy rate comes from a numpy scalar division, so it can be a number,
`nan` (empty frame) or `inf` (zero available nights); the other ratio KPIs
are either guarded or plain means and can only be a number or `nan`
(`Option ℚ`, with `none` for `nan`). -/
structure KpisG where
  total_revenue : ℚ
  occupancy_rate : PFloat
  adr : ℚ
  revpar : Option ℚ
  lead_time : Option ℚ
  number_of_reservations : Nat
  average_length_of_stay : Option ℚ
  average_rating : Option ℚ
  value_rating : Option ℚ
  communication_rating : Option ℚ
  location_rating : Option ℚ
  cleanliness_rating : Option ℚ
  accuracy_rating : Option ℚ
  checkin_rating : Option ℚ
deriving DecidableEq, Repr

/-- Numeric KPI outputs of `calculate_kpis` in `test_version.py`: the same
KPIs plus the cancellation rate. -/
structure KpisT where
  total_revenue : ℚ
  occupancy_rate : PFloat
  adr : ℚ
  revpar : Option ℚ
  lead_time : Option ℚ
  number_of_reservations : Nat
  average_length_of_stay : Option ℚ
  cancellation_rate : ℚ
  average_rating : Option ℚ
  value_rating : Option ℚ
  communication_rating : Option ℚ
  location_rating : Option ℚ
  cleanliness_rating : Option ℚ
  accuracy_rating : Option ℚ
  checkin_rating : Option ℚ
deriving DecidableEq, Repr

/-- `calculate_kpis` of `Globlal_Dashboard.py` (lines 27-80).  It never
raises: the `occupancy_rate` division has a numpy-scalar numerator
(`df['nights'].sum()`), so a zero `total_available_nights` silently gives
`inf` (or `nan` when no night was booked), and on an empty frame the `nan`
span propagates to `nan`.  The function always writes the `lead_time`
column into its argument frame (lines 41-45); the second component of the
result is the frame after the call. -/
def calculate_kpis_G (df : DataFrame) : KpisG × DataFrame :=
  ({ total_revenue := totalRevenue df.rows
     occupancy_rate := match totalAvailableNights df.rows with
       | none => PFloat.nan
       | some t => pfMap (fun q => round2 (q * 100))
           (floatDiv (totalNights df.rows : ℚ) (t : ℚ))
     adr := if totalNights df.rows = 0 then 0
       else round2 (totalRevenue df.rows / (totalNights df.rows : ℚ))
     revpar := (totalAvailableNights df.rows).map
       (fun t => if t = 0 then 0 else round2 (totalRevenue df.rows / (t : ℚ)))
     lead_time := (seriesMean (df.rows.map
       (fun r => ((r.checkin_date - r.booking_date : Int) : ℚ)))).map round2
     number_of_reservations := df.rows.length
     average_length_of_stay :=
       (seriesMean (df.rows.map (fun r => (r.nights : ℚ)))).map round2
     average_rating := avgRatingCol df Booking.rating
     value_rating := avgRatingCol df Booking.value_rating
     communication_rating := avgRatingCol df Booking.communication_rating
     location_rating := avgRatingCol df Booking.location_rating
     cleanliness_rating := avgRatingCol df Booking.cleanliness_rating
     accuracy_rating := avgRatingCol df Booking.accuracy_rating
     checkin_rating := avgRatingCol df Booking.checkin_rating },
   { rows := df.rows.map
       (fun r => { r with lead_time := some (r.checkin_date - r.booking_date) })
     ratingCols := df.ratingCols })

/-- `calculate_kpis` of `test_version.py` (lines 24-77).  The occupancy
division is the same silent numpy one; the only raise is
`cancellation_rate` at line 59, which divides two plain Python ints
(`.shape[0]` counts), so a zero-row frame raises `ZeroDivisionError`
(`Except.error`).  This variant only retypes `booking_date` in place,
which is value-invariant here, so no frame is returned. -/
def calculate_kpis_T (df : DataFrame) : Except Unit KpisT :=
  if df.rows.length = 0 then .error ()
  else
    .ok
      { total_revenue := totalRevenue df.rows
        occupancy_rate := match totalAvailableNights df.rows with
          | none => PFloat.nan
          | some t => pfMap (fun q => round2 (q * 100))
              (floatDiv (totalNights df.rows : ℚ) (t : ℚ))
        adr := if totalNights df.rows = 0 then 0
          else round2 (totalRevenue df.rows / (totalNights df.rows : ℚ))
        revpar := (totalAvailableNights df.rows).map
          (fun t => if t = 0 then 0 else round2 (totalRevenue df.rows / (t : ℚ)))
        lead_time := (seriesMean (df.rows.map
          (fun r => ((r.checkin_date - r.booking_date : Int) : ℚ)))).map round2
        number_of_reservations := df.rows.length
        average_length_of_stay :=
          (seriesMean (df.rows.map (fun r => (r.nights : ℚ)))).map round2
        cancellation_rate :=
          round2 (((countCancelled df.rows : ℚ) / (df.rows.length : ℚ)) * 100)
        average_rating := avgRatingCol df Booking.rating
        value_rating := avgRatingCol df Booking.value_rating
        communication_rating := avgRatingCol df Booking.communication_rating
        location_rating := avgRatingCol df Booking.location_rating
        cleanliness_rating := avgRatingCol df Booking.cleanliness_rating
        accuracy_rating := avgRatingCol df Booking.accuracy_rating
        checkin_rating := avgRatingCol df Booking.checkin_rating }

/-- KPI record of the Globlal variant (which never raises), discarding the
returned frame. -/
def kpisG_val (df : DataFrame) : KpisG := (calculate_kpis_G df).1

/-- Read the payload of a non-raising call. -/
def okVal {α : Type} : Except Unit α → Option α
  | .ok a => some a
  | .error _ => none

/-- `groupby('platform')['nights'].sum()` as an association list over the
distinct platform labels. -/
def groupNightsByPlatform (rows : List Booking) : List (String × Nat) :=
  ((rows.map Booking.platform).dedup).map
    (fun p => (p, totalNights (rows.filter (fun r => decide (r.platform = p)))))

/-- Nights-booked-per-platform aggregation of `Globlal_Dashboard.py`
(lines 95-108): cancelled rows are dropped first. -/
def nightsByPlatform_G (df : DataFrame) : List (String × Nat) :=
  groupNightsByPlatform (df.rows.filter (fun r => decide (r.status ≠ "cancelled")))

/-- Nights-booked-per-platform aggregation of `test_version.py`
(lines 86-91): no status filter. -/
def nightsByPlatform_T (df : DataFrame) : List (String × Nat) :=
  groupNightsByPlatform df.rows

/-- Value of a grouped series at a key (0 for a label with no group,
matching a pie slice that simply does not exist). -/
def pairVal (l : List (String × Nat)) (p : String) : Nat :=
  match l.find? (fun x => decide (x.1 = p)) with
  | some x => x.2
  | none => 0

/-- Percentage share of one slice of a grouped series (what the pie chart
renders). -/
def shareOf (l : List (String × Nat)) (p : String) : ℚ :=
  100 * (pairVal l p : ℚ) / ((l.map Prod.snd).sum : ℚ)

/-- Sidebar filter application of `main` (both files, identical code):
a checkin-date range test, then `isin` restrictions applied only when the
corresponding multiselect list is non-empty (Python truthiness). -/
def filter_df (df : DataFrame) (d0 d1 : Int)
    (platformSel propertySel : List String) : DataFrame :=
  let s1 := df.rows.filter
    (fun r => decide (d0 ≤ r.checkin_date ∧ r.checkin_date ≤ d1))
  let s2 := if platformSel = [] then s1
    else s1.filter (fun r => decide (r.platform ∈ platformSel))
  let s3 := if propertySel = [] then s2
    else s2.filter (fun r => decide (r.property_name ∈ propertySel))
  { rows := s3, ratingCols := df.ratingCols }

/-- Modelled from the spec: filtering with *no platform filter at all*
(only the date range and property restrictions), the baseline the spec
compares an empty platform selection against. -/
def filterNoPlatformSel (df : DataFrame) (d0 d1 : Int)
    (propertySel : List String) : DataFrame :=
  let s1 := df.rows.filter
    (fun r => decide (d0 ≤ r.checkin_date ∧ r.checkin_date ≤ d1))
  let s2 := if propertySel = [] then s1
    else s1.filter (fun r => decide (r.property_name ∈ propertySel))
  { rows := s2, ratingCols := df.ratingCols }

/-- The `nightly_rate` derivation of `load_data` in `Globlal_Dashboard.py`
(line 23): `df['revenue'] / df['nights']`, per row. -/
def nightly_rate (r : Booking) : PFloat :=
  floatDiv r.revenue (r.nights : ℚ)

/-- The spec's 3-booking scenario: property A on airbnb (revenue 100 and
200, nights 2 and 2, the second row cancelled), property B on vrbo
(revenue 150, nights 3, confirmed). -/
def rowA1 : Booking :=
  { code := 1, property_name := "A", platform := "airbnb", status := "confirmed",
    checkin_date := 0, checkout_date := 2, booking_date := 0,
    nights := 2, revenue := 100 }

def rowA2 : Booking :=
  { code := 2, property_name := "A", platform := "airbnb", status := "cancelled",
    checkin_date := 2, checkout_date := 4, booking_date := 1,
    nights := 2, revenue := 200 }

def rowB : Booking :=
  { code := 3, property_name := "B", platform := "vrbo", status := "confirmed",
    checkin_date := 1, checkout_date := 4, booking_date := 0,
    nights := 3, revenue := 150 }

def scenarioDf : DataFrame := { rows := [rowA1, rowA2, rowB], ratingCols := true }

/-- The empty booking table (rating columns present, zero rows). -/
def emptyDf : DataFrame := { rows := [], ratingCols := true }

/-- A booking row that has no matching review (all rating fields null). -/
def rowNoReview : Booking :=
  { code := 9, property_name := "A", platform := "airbnb", status := "confirmed",
    checkin_date := 0, checkout_date := 1, booking_date := 0,
    nights := 1, revenue := 50 }

/-- A booking row whose checkout date precedes its checkin date by one day:
the only kind of row that makes `total_available_nights` the integer 0. -/
def rowZeroSpan : Booking :=
  { code := 4, property_name := "A", platform := "airbnb", status := "confirmed",
    checkin_date := 5, checkout_date := 4, booking_date := 0,
    nights := 2, revenue := 100 }

/-- A one-row table with a zero available-nights denominator. -/
def zeroSpanDf : DataFrame := { rows := [rowZeroSpan], ratingCols := true }

/-- The ADR entry of the Globlal variant. -/
def adrOf (df : DataFrame) : ℚ := (kpisG_val df).adr

/-- The cancellation-rate entry of the test_version variant, when the call
does not raise. -/
def cancellationOf (df : DataFrame) : Option ℚ :=
  (okVal (calculate_kpis_T df)).map KpisT.cancellation_rate

/-- What each nights-booked-per-platform variant computes for one platform:
the Globlal one sums nights of non-cancelled rows only, the test_version
one sums nights of all rows. -/
def nightsByPlatformEq (df : DataFrame) (p : String) : Prop :=
  pairVal (nightsByPlatform_G df) p =
    totalNights ((df.rows.filter (fun r => decide (r.status ≠ "cancelled"))).filter
      (fun r => decide (r.platform = p))) ∧
  pairVal (nightsByPlatform_T df) p =
    totalNights (df.rows.filter (fun r => decide (r.platform = p)))

/-- The spec's 3-booking scenario, evaluated on the variant that excludes
cancelled rows: airbnb 2 nights, vrbo 3 nights, shares 40 % and 60 %. -/
def scenarioNightsFacts : Prop :=
  pairVal (nightsByPlatform_G scenarioDf) "airbnb" = 2 ∧
  pairVal (nightsByPlatform_G scenarioDf) "vrbo" = 3 ∧
  shareOf (nightsByPlatform_G scenarioDf) "airbnb" = 40 ∧
  shareOf (nightsByPlatform_G scenarioDf) "vrbo" = 60

/-- Exact frame effect of `calculate_kpis` in `Globlal_Dashboard.py`: the
input frame always comes back with the `lead_time` column rewritten to
checkin − booking in days (all other cells unchanged), so the frame after
the call differs from the frame before it whenever the column was not
already set this way. -/
def kpisGFrameEffect (df : DataFrame) : Prop :=
  (calculate_kpis_G df).2 =
    { rows := df.rows.map
        (fun r => { r with lead_time := some (r.checkin_date - r.booking_date) })
      ratingCols := df.ratingCols } ∧
  (df.rows ≠ [] → (∀ r ∈ df.rows, r.lead_time = none) →
    (calculate_kpis_G df).2 ≠ df)

/-- Specification of the ADR KPI: revenue over nights rounded to two
decimals when any night was booked (and non-negative for non-negative
revenues), 0 when no night was booked. -/
def adrSpecProp (df : DataFrame) : Prop :=
  (totalNights df.rows ≠ 0 →
    adrOf df = round2 (totalRevenue df.rows / (totalNights df.rows : ℚ))) ∧
  ((∀ r ∈ df.rows, 0 ≤ r.revenue) → 0 ≤ adrOf df) ∧
  (totalNights df.rows = 0 → adrOf df = 0)

/-- Specification of the cancellation-rate KPI on a non-empty table:
cancelled count over row count times 100 rounded to two decimals, 0 with no
cancelled row, 100 with every row cancelled; on a zero-row table the
aggregator raises. -/
def cancellationSpecProp (df : DataFrame) : Prop :=
  cancellationOf df =
    some (round2 (((countCancelled df.rows : ℚ) / (df.rows.length : ℚ)) * 100)) ∧
  (countCancelled df.rows = 0 → cancellationOf df = some 0) ∧
  (countCancelled df.rows = df.rows.length → cancellationOf df = some 100) ∧
  (∀ b : Bool, okVal (calculate_kpis_T { rows := [], ratingCols := b }) = none)

/-- Specification of the sidebar filter: a row survives exactly when its
checkin date lies in the inclusive range and, for each non-empty selector
list, its value is a member; an empty platform selection filters exactly
like having no platform filter at all, and a singleton platform selection
keeps a subset of the platform-unfiltered rows. -/
def filterSpecProp (df : DataFrame) (d0 d1 : Int) (P Q : List String) : Prop :=
  (∀ r : Booking, r ∈ (filter_df df d0 d1 P Q).rows ↔
    (r ∈ df.rows ∧ d0 ≤ r.checkin_date ∧ r.checkin_date ≤ d1 ∧
     (P ≠ [] → r.platform ∈ P) ∧ (Q ≠ [] → r.property_name ∈ Q))) ∧
  ((filter_df df d0 d1 [] Q).rows.length =
    (filterNoPlatformSel df d0 d1 Q).rows.length) ∧
  (∀ p : String, ∀ r ∈ (filter_df df d0 d1 [p] Q).rows,
    r ∈ (filter_df df d0 d1 [] Q).rows)

/-- Specification of the rating averages: rows without a review never move
an average (nulls skipped, not counted as 0); an entirely-null column
yields the undefined value `none` (pandas `NaN`); an absent column yields
the substitute 0; and every one of the seven KPI entries is produced by
this same rule. -/
def ratingSpecProp (df : DataFrame) (r : Booking) (col : Booking → Option ℚ) : Prop :=
  (col r = none →
    avgRatingCol { rows := r :: df.rows, ratingCols := df.ratingCols } col =
      avgRatingCol df col) ∧
  (df.ratingCols = true → (∀ s ∈ df.rows, col s = none) →
    avgRatingCol df col = none) ∧
  (df.ratingCols = false → avgRatingCol df col = some 0) ∧
  ((kpisG_val df).average_rating = avgRatingCol df Booking.rating ∧
    (kpisG_val df).value_rating = avgRatingCol df Booking.value_rating ∧
    (kpisG_val df).communication_rating = avgRatingCol df Booking.communication_rating ∧
    (kpisG_val df).location_rating = avgRatingCol df Booking.location_rating ∧
    (kpisG_val df).cleanliness_rating = avgRatingCol df Booking.cleanliness_rating ∧
    (kpisG_val df).accuracy_rating = avgRatingCol df Booking.accuracy_rating ∧
    (kpisG_val df).checkin_rating = avgRatingCol df Booking.checkin_rating)

/-- The numeric KPIs both `calculate_kpis` variants produce, pairwise
equal. -/
def kpisAgree (g : KpisG) (k : KpisT) : Prop :=
  g.total_revenue = k.total_revenue ∧
  g.occupancy_rate = k.occupancy_rate ∧
  g.adr = k.adr ∧
  g.revpar = k.revpar ∧
  g.lead_time = k.lead_time ∧
  g.number_of_reservations = k.number_of_reservations ∧
  g.average_length_of_stay = k.average_length_of_stay ∧
  g.average_rating = k.average_rating ∧
  g.value_rating = k.value_rating ∧
  g.communication_rating = k.communication_rating ∧
  g.location_rating = k.location_rating ∧
  g.cleanliness_rating = k.cleanliness_rating ∧
  g.accuracy_rating = k.accuracy_rating ∧
  g.checkin_rating = k.checkin_rating

/-- Fallback record used only to read a known-successful result. -/
def kpisT0 : KpisT :=
  { total_revenue := 0, occupancy_rate := PFloat.nan, adr := 0, revpar := none,
    lead_time := none, number_of_reservations := 0,
    average_length_of_stay := none, cancellation_rate := 0,
    average_rating := none, value_rating := none, communication_rating := none,
    location_rating := none, cleanliness_rating := none, accuracy_rating := none,
    checkin_rating := none }

/-- The test_version KPI record on the scenario table. -/
def kTscen : KpisT := (okVal (calculate_kpis_T scenarioDf)).getD kpisT0

/-- The Globlal KPI record on the scenario table. -/
def gScen : KpisG := kpisG_val scenarioDf

lemma round2_nonneg {q : ℚ} (h : 0 ≤ q) : 0 ≤ round2 q := by
  unfold round2
  apply div_nonneg _ (by norm_num)
  have h1 : (0 : ℤ) ≤ round (q * 100) := by
    rw [round_eq]
    apply Int.le_floor.mpr
    have : (0 : ℚ) ≤ q * 100 := by positivity
    push_cast
    linarith
  exact_mod_cast h1

lemma find?_map_key (keys : List String) (f : String → Nat) (p : String) :
    (keys.map (fun q => (q, f q))).find? (fun x => decide (x.1 = p)) =
      if p ∈ keys then some (p, f p) else none := by
  induction keys with
  | nil => simp
  | cons k ks ih =>
    by_cases hk : k = p
    · subst hk
      rw [List.map_cons, List.find?_cons_of_pos _ (by simp)]
      simp
    · rw [List.map_cons, List.find?_cons_of_neg _ (by simp [hk]), ih]
      by_cases hp : p ∈ ks
      · rw [if_pos hp, if_pos (List.mem_cons_of_mem k hp)]
      · have hnot : ¬ p ∈ k :: ks := by
          rw [List.mem_cons]
          rintro (h | h)
          · exact hk h.symm
          · exact hp h
        rw [if_neg hp, if_neg hnot]

lemma pairVal_groupNights (rows : List Booking) (p : String) :
    pairVal (groupNightsByPlatform rows) p =
      totalNights (rows.filter (fun r => decide (r.platform = p))) := by
  unfold pairVal groupNightsByPlatform
  rw [find?_map_key]
  by_cases hp : p ∈ (rows.map Booking.platform).dedup
  · simp [hp]
  · simp only [hp, if_false]
    have hnil : rows.filter (fun r => decide (r.platform = p)) = [] := by
      rw [List.filter_eq_nil_iff]
      intro r hr hpr
      apply hp
      rw [List.mem_dedup]
      simp only [decide_eq_true_eq] at hpr
      exact hpr ▸ List.mem_map_of_mem Booking.platform hr
    rw [hnil]
    rfl

lemma calculate_kpis_T_ok {df : DataFrame} (hlen : df.rows.length ≠ 0) :
    okVal (calculate_kpis_T df) = some
      { total_revenue := totalRevenue df.rows
        occupancy_rate := match totalAvailableNights df.rows with
          | none => PFloat.nan
          | some t => pfMap (fun q => round2 (q * 100))
              (floatDiv (totalNights df.rows : ℚ) (t : ℚ))
        adr := if totalNights df.rows = 0 then 0
          else round2 (totalRevenue df.rows / (totalNights df.rows : ℚ))
        revpar := (totalAvailableNights df.rows).map
          (fun t => if t = 0 then 0 else round2 (totalRevenue df.rows / (t : ℚ)))
        lead_time := (seriesMean (df.rows.map
          (fun r => ((r.checkin_date - r.booking_date : Int) : ℚ)))).map round2
        number_of_reservations := df.rows.length
        average_length_of_stay :=
          (seriesMean (df.rows.map (fun r => (r.nights : ℚ)))).map round2
        cancellation_rate :=
          round2 (((countCancelled df.rows : ℚ) / (df.rows.length : ℚ)) * 100)
        average_rating := avgRatingCol df Booking.rating
        value_rating := avgRatingCol df Booking.value_rating
        communication_rating := avgRatingCol df Booking.communication_rating
        location_rating := avgRatingCol df Booking.location_rating
        cleanliness_rating := avgRatingCol df Booking.cleanliness_rating
        accuracy_rating := avgRatingCol df Booking.accuracy_rating
        checkin_rating := avgRatingCol df Booking.checkin_rating } := by
  unfold calculate_kpis_T
  rw [if_neg hlen]
  rfl

lemma mem_filter_df {df : DataFrame} {d0 d1 : Int} {P Q : List String} {r : Booking} :
    r ∈ (filter_df df d0 d1 P Q).rows ↔
      (r ∈ df.rows ∧ d0 ≤ r.checkin_date ∧ r.checkin_date ≤ d1 ∧
       (P ≠ [] → r.platform ∈ P) ∧ (Q ≠ [] → r.property_name ∈ Q)) := by
  by_cases hP : P = [] <;> by_cases hQ : Q = [] <;>
    simp [filter_df, hP, hQ, List.mem_filter, and_assoc] <;> tauto

/-- C1, counterexample: the cancelled-row exclusion is not applied by every
nights-booked aggregation in the program — on the 3-booking scenario table
the `test_version.py` aggregation counts the cancelled row and reports
airbnb = 4 nights, while the `Globlal_Dashboard.py` one reports 2. -/
theorem nights_exclusion_not_universal :
    pairVal (nightsByPlatform_T scenarioDf) "airbnb" = 4 ∧
    pairVal (nightsByPlatform_G scenarioDf) "airbnb" = 2 ∧ (4 : Nat) ≠ 2 := by
  decide

/-- C1, amended: the `Globlal_Dashboard.py` nights-booked aggregation first
removes cancelled rows and then groups by platform and sums nights — giving
airbnb = 2, vrbo = 3 (shares 40 % and 60 %) on the scenario table — while
the `test_version.py` nights-booked aggregation applies no cancelled-row
exclusion and sums the nights of all rows. -/
theorem nights_share_spec :
    ∀ (df : DataFrame) (p : String), nightsByPlatformEq df p ∧ scenarioNightsFacts := by
  intro df p
  constructor
  · unfold nightsByPlatformEq
    constructor
    · unfold nightsByPlatform_G
      exact pairVal_groupNights _ p
    · unfold nightsByPlatform_T
      exact pairVal_groupNights _ p
  · unfold scenarioNightsFacts
    refine ⟨by decide, by decide, ?_, ?_⟩
    · have h1 : pairVal (nightsByPlatform_G scenarioDf) "airbnb" = 2 := by decide
      have h2 : ((nightsByPlatform_G scenarioDf).map Prod.snd).sum = 5 := by decide
      rw [shareOf, h1, h2]
      norm_num
    · have h1 : pairVal (nightsByPlatform_G scenarioDf) "vrbo" = 3 := by decide
      have h2 : ((nightsByPlatform_G scenarioDf).map Prod.snd).sum = 5 := by decide
      rw [shareOf, h1, h2]
      norm_num

/-- C1, witness: the amended statement instantiated on the scenario table
and the airbnb platform. -/
theorem nights_share_spec_witness :
    nightsByPlatformEq scenarioDf "airbnb" ∧ scenarioNightsFacts :=
  nights_share_spec scenarioDf "airbnb"

/-- C2, evaluation at the failing input: on the empty table the
`test_version.py` aggregator raises (cancellation rate divides by a zero
row count) instead of reporting a sentinel, and the `Globlal_Dashboard.py`
aggregator returns `NaN` for the occupancy rate, RevPAR, lead time, length
of stay and rating averages instead of a "no data" sentinel. -/
theorem kpis_empty_table :
    okVal (calculate_kpis_T emptyDf) = none ∧
    (kpisG_val emptyDf).occupancy_rate = PFloat.nan ∧
    (kpisG_val emptyDf).revpar = none ∧
    (kpisG_val emptyDf).lead_time = none ∧
    (kpisG_val emptyDf).average_length_of_stay = none ∧
    (kpisG_val emptyDf).average_rating = none := by
  decide

/-- C3, counterexample: `calculate_kpis` of `Globlal_Dashboard.py` does not
leave its input table unchanged — on the scenario table the frame after the
call differs from the frame before it (a `lead_time` column was written). -/
theorem kpis_mutates_input : (calculate_kpis_G scenarioDf).2 ≠ scenarioDf := by
  decide

/-- C3, amended: all aggregations leave the table's booking data unchanged
except `calculate_kpis` of `Globlal_Dashboard.py`, whose exact frame effect
is to always rewrite the `lead_time` column of its input to
checkin − booking in days (every other cell kept), so the frame after the
call differs from the frame before it whenever the column was unset. -/
theorem kpis_frame_effect : ∀ df : DataFrame, kpisGFrameEffect df := by
  intro df
  unfold kpisGFrameEffect
  refine ⟨rfl, ?_⟩
  intro hne hnone heq
  have hrows : df.rows.map
      (fun r => { r with lead_time := some (r.checkin_date - r.booking_date) }) =
      df.rows := congrArg DataFrame.rows heq
  cases hl : df.rows with
  | nil => exact hne hl
  | cons r rs =>
    rw [hl, List.map_cons] at hrows
    have hr : { r with lead_time := some (r.checkin_date - r.booking_date) } = r :=
      (List.cons.inj hrows).1
    have hlt : some (r.checkin_date - r.booking_date) = r.lead_time :=
      congrArg Booking.lead_time hr
    rw [hnone r (by rw [hl]; exact List.mem_cons_self r rs)] at hlt
    exact Option.noConfusion hlt

/-- C3, witness: the amended frame effect instantiated on the scenario
table. -/
theorem kpis_frame_effect_witness : kpisGFrameEffect scenarioDf :=
  kpis_frame_effect scenarioDf

/-- C4, evaluation at the failing input: on a one-row table whose checkout
date precedes its checkin date by one day, `total_available_nights` is the
integer 0, and the aggregator neither signals an error nor defines the
occupancy rate as 0 — both variants perform the unguarded division (a
numpy scalar over a Python int, which never raises) and report positive
infinity. -/
theorem occupancy_zero_span_inf :
    totalAvailableNights zeroSpanDf.rows = some 0 ∧
    (kpisG_val zeroSpanDf).occupancy_rate = PFloat.inf ∧
    (okVal (calculate_kpis_T zeroSpanDf)).map KpisT.occupancy_rate = some PFloat.inf ∧
    PFloat.inf ≠ PFloat.num 0 := by
  decide

/-- C5: the ADR KPI is total revenue over total nights rounded to two
decimals whenever total nights is positive (and then non-negative for
non-negative revenues), and 0 when total nights is zero. -/
theorem adr_spec : ∀ df : DataFrame, adrSpecProp df := by
  intro df
  have hadr : adrOf df = (if totalNights df.rows = 0 then (0 : ℚ)
      else round2 (totalRevenue df.rows / (totalNights df.rows : ℚ))) := rfl
  unfold adrSpecProp
  refine ⟨?_, ?_, ?_⟩
  · intro h0
    rw [hadr, if_neg h0]
  · intro hrev
    rw [hadr]
    by_cases h0 : totalNights df.rows = 0
    · rw [if_pos h0]
    · rw [if_neg h0]
      apply round2_nonneg
      apply div_nonneg
      · unfold totalRevenue
        apply List.sum_nonneg
        intro x hx
        obtain ⟨r, hr, rfl⟩ := List.mem_map.mp hx
        exact hrev r hr
      · exact Nat.cast_nonneg _
  · intro h0
    rw [hadr, if_pos h0]

/-- C5, witness: the ADR specification instantiated on the scenario table
(where 5 nights were booked for 450 of revenue). -/
theorem adr_spec_witness : adrSpecProp scenarioDf :=
  adr_spec scenarioDf

/-- C6: on every non-empty table the cancellation rate is the cancelled-row
count over the row count times 100 rounded to two decimals — in particular
0 with no cancelled row and 100 with every row cancelled — and the
aggregator raises on a zero-row table. -/
theorem cancellation_rate_spec : ∀ df : DataFrame, df.rows ≠ [] →
    cancellationSpecProp df := by
  intro df hne
  have hlen : df.rows.length ≠ 0 := fun h => hne (List.length_eq_zero.mp h)
  have hcan : cancellationOf df =
      some (round2 (((countCancelled df.rows : ℚ) / (df.rows.length : ℚ)) * 100)) := by
    unfold cancellationOf
    rw [calculate_kpis_T_ok hlen]
    rfl
  unfold cancellationSpecProp
  refine ⟨hcan, ?_, ?_, ?_⟩
  · intro h0
    rw [hcan, h0]
    norm_num [round2, round_zero]
  · intro hall
    rw [hcan, hall]
    have hnz : ((df.rows.length : ℚ)) ≠ 0 := Nat.cast_ne_zero.mpr hlen
    rw [div_self hnz]
    norm_num [round2, round_eq, Int.floor_eq_iff]
  · intro b
    cases b <;> rfl

/-- C6, witness: the cancellation-rate specification instantiated on the
scenario table (1 cancelled row of 3, rate 33.33). -/
theorem cancellation_rate_spec_witness :
    scenarioDf.rows ≠ [] ∧ cancellationSpecProp scenarioDf :=
  ⟨by decide, cancellation_rate_spec scenarioDf (by decide)⟩

/-- C7: the sidebar filter keeps exactly the rows with checkin date in the
inclusive range whose platform (resp. property) belongs to each non-empty
selector list; an empty platform selection filters exactly like no platform
filter, and a singleton platform selection keeps a subset of the
platform-unfiltered rows. -/
theorem filter_application_spec :
    ∀ (df : DataFrame) (d0 d1 : Int) (P Q : List String), filterSpecProp df d0 d1 P Q := by
  intro df d0 d1 P Q
  unfold filterSpecProp
  refine ⟨fun r => mem_filter_df, rfl, ?_⟩
  intro p r hr
  rw [mem_filter_df] at hr ⊢
  obtain ⟨h1, h2, h3, h4, h5⟩ := hr
  exact ⟨h1, h2, h3, by simp, h5⟩

/-- C7, witness: the filter specification instantiated on the scenario
table, the range 0–4 and a singleton airbnb selection. -/
theorem filter_application_spec_witness :
    filterSpecProp scenarioDf 0 4 ["airbnb"] [] :=
  filter_application_spec scenarioDf 0 4 ["airbnb"] []

/-- C8, counterexample: the two no-data cases do not use one consistent
default — on a one-row table with no review, a present-but-entirely-null
rating column reports `none` (pandas `NaN`), while an absent rating column
reports 0, and these differ. -/
theorem rating_default_inconsistent :
    avgRatingCol { rows := [rowNoReview], ratingCols := true } Booking.rating = none ∧
    avgRatingCol { rows := [rowNoReview], ratingCols := false } Booking.rating = some 0 ∧
    (none : Option ℚ) ≠ some 0 := by
  decide

/-- C8, amended: each rating average is the null-aware mean over the rows
that have a review (a row without a review never changes an average — nulls
are skipped, not counted as 0); an absent column defaults to 0 while a
present but entirely-null column yields `NaN` (no value), the same rule at
every one of the seven call sites of both variants. -/
theorem rating_average_spec :
    ∀ (df : DataFrame) (r : Booking) (col : Booking → Option ℚ),
      ratingSpecProp df r col := by
  intro df r col
  unfold ratingSpecProp
  refine ⟨?_, ?_, ?_, ?_⟩
  · intro h
    unfold avgRatingCol
    simp [List.filterMap_cons, h]
  · intro hcols hall
    unfold avgRatingCol
    rw [hcols]
    have hnil : df.rows.filterMap col = [] := by
      simp only [List.filterMap_eq_nil_iff]
      exact hall
    simp [hnil, seriesMean]
  · intro hcols
    unfold avgRatingCol
    rw [hcols]
    simp
  · exact ⟨rfl, rfl, rfl, rfl, rfl, rfl, rfl⟩

/-- C8, witness: the amended rating specification instantiated on the empty
table, a review-less row and the main rating column. -/
theorem rating_average_spec_witness : ratingSpecProp emptyDf rowNoReview Booking.rating :=
  rating_average_spec emptyDf rowNoReview Booking.rating

/-- C9, evaluation at the failing input: the nightly-rate derivation of
`load_data` does not crash on a nights = 0 booking, but for positive
revenue it produces positive infinity (the pandas float division), not the
undefined value `NaN` that the spec requires. -/
theorem nightly_rate_zero_nights :
    nightly_rate { rowA1 with nights := 0 } = PFloat.inf ∧ PFloat.inf ≠ PFloat.nan := by
  decide

/-- C10: whenever the `test_version.py` variant returns a KPI record on a
table (the `Globlal_Dashboard.py` variant always does), every numeric KPI
the two variants both produce — total revenue, occupancy rate, ADR, RevPAR,
lead time, reservation count, average length of stay and the seven rating
averages — is equal between the two records. -/
theorem kpi_variants_agree :
    ∀ (df : DataFrame) (k : KpisT),
      okVal (calculate_kpis_T df) = some k → kpisAgree (kpisG_val df) k := by
  intro df k hk
  by_cases hlen : df.rows.length = 0
  · unfold calculate_kpis_T at hk
    rw [if_pos hlen] at hk
    exact absurd hk (by simp [okVal])
  · rw [calculate_kpis_T_ok hlen] at hk
    have hk2 := Option.some.inj hk
    subst hk2
    unfold kpisAgree
    exact ⟨rfl, rfl, rfl, rfl, rfl, rfl, rfl, rfl, rfl, rfl, rfl, rfl, rfl, rfl⟩

/-- C10, witness: both variants succeed on the scenario table and their
shared numeric KPIs coincide. -/
theorem kpi_variants_agree_witness :
    okVal (calculate_kpis_T scenarioDf) = some kTscen ∧ kpisAgree gScen kTscen := by
  have h1 : okVal (calculate_kpis_T scenarioDf) = some kTscen := rfl
  exact ⟨h1, kpi_variants_agree scenarioDf kTscen h1⟩

end Dashboard
